import Mathlib

/-!
# igvc-software: trajectory controller node and occupancy-grid mapper

Shallow embedding of

* `igvc_navigation/src/trajectory_controller/ros_trajectory_controller.cpp`
  (namespace `RosTrajectoryController`), and
* `igvc/src/new_mapper/main.cpp` (namespace `NewMapper`).

Conventions.  Side effects (publishing, logging, calls into the underlying
controller) are made explicit as a list of events returned next to the new
object state.  Undefined behaviour of the C++ program (an out-of-range
`std::vector` index, the conversion to `int` of a `double` that is not finite
or not in range) is the result `none`.  Floating-point values are carried as
rationals: the functions embedded here store and copy them, and where the
source computes with them the real-valued expression is kept (rounding to
`float`/`double` is not modelled).
-/

namespace RosTrajectoryController

/-! ## Messages -/

/-- Time stamp `ros::Time`. -/
structure Time where
  sec : Nat
  nsec : Nat
  deriving DecidableEq, Repr

/-- Position part of one `geometry_msgs::PoseStamped` way point. -/
structure PoseStamped where
  x : ℚ
  y : ℚ
  deriving DecidableEq, Repr

/-- Message `nav_msgs::Path`: a stamped, ordered list of way points. -/
structure Path where
  stamp : Time
  poses : List PoseStamped
  deriving DecidableEq, Repr

/-- Message `nav_msgs::Odometry`: a stamped pose and twist. -/
structure Odometry where
  stamp : Time
  x : ℚ
  y : ℚ
  yaw : ℚ
  linear : ℚ
  angular : ℚ
  deriving DecidableEq, Repr

/-- Message `geometry_msgs::Point`. -/
structure Point where
  x : ℚ
  y : ℚ
  z : ℚ
  deriving DecidableEq, Repr

/-- Message `visualization_msgs::Marker`, the fields written by `toLineStrip`.
`type_` is the numeric marker type (`LINE_STRIP = 4`). -/
structure Marker where
  frame_id : String
  stamp : Time
  ns : String
  id : Int
  scale_x : ℚ
  color_r : ℚ
  color_g : ℚ
  color_b : ℚ
  color_a : ℚ
  type_ : Nat
  points : List Point
  deriving DecidableEq, Repr

/-- Message `visualization_msgs::MarkerArray`. -/
structure MarkerArray where
  markers : List Marker
  deriving DecidableEq, Repr

/-- Message `igvc_msgs::velocity_pair`, the type advertised on `motor_pub_`. -/
structure VelocityPair where
  left_velocity : ℚ
  right_velocity : ℚ
  deriving DecidableEq, Repr

/-- Matrix `cv::Mat` of `float` entries, stored row-major. -/
structure Mat where
  rows : Nat
  cols : Nat
  data : List ℚ
  deriving DecidableEq, Repr

/-- Entry `mat.at<float>(row, col)`. -/
def Mat.at (m : Mat) (row col : Nat) : ℚ :=
  m.data.getD (row * m.cols + col) 0

/-- Point `pcl::PointXYZI` as built by `publishAsPCL`.  The source sets
`intensity = cos(mat.at<float>(j, i))`; the argument of the cosine is kept. -/
structure PointXYZI where
  x : ℚ
  y : ℚ
  intensity_cos_of : ℚ
  deriving DecidableEq, Repr

/-- Message `pcl::PointCloud<pcl::PointXYZI>` with its header. -/
structure PointCloud where
  frame_id : String
  stamp : Time
  points : List PointXYZI
  deriving DecidableEq, Repr

/-! ## Types of the controller library (`trajectory_controller.h`) -/

/-- Modelled from the spec: the `State` of one rollout step, declared in the
header `trajectory_controller.h` that is not part of the sources; the two
fields read by `toLineStrip` (the position) are kept. -/
structure State where
  x : ℚ
  y : ℚ
  deriving DecidableEq, Repr

/-- Modelled from the spec: a `Particle<Model>` (candidate trajectory) of the
absent header, with the member `state_vec_` read by `visualizeRollout`. -/
structure Particle where
  state_vec_ : List State
  deriving DecidableEq, Repr

/-- Modelled from the spec: `OptimizationResult<Model>` of the absent header:
the particles of one cycle and the index of the selected one.  The index is a
machine integer and is not constrained by the type. -/
structure OptimizationResult where
  particles : List Particle
  best_particle : Int
  deriving DecidableEq, Repr

/-- Modelled from the spec: `ControllerResult` of the absent header, with the
two members read by `ROSTrajectoryController::getControls`. -/
structure ControllerResult where
  optimization_result : OptimizationResult
  signed_distance_field : Mat
  deriving DecidableEq, Repr

/-- The index `best_particle` is a valid index into `particles`. -/
def OptimizationResult.bestInBounds (r : OptimizationResult) : Prop :=
  0 ≤ r.best_particle ∧ r.best_particle < (r.particles.length : Int)

instance (r : OptimizationResult) : Decidable r.bestInBounds := by
  unfold OptimizationResult.bestInBounds
  infer_instance

/-- Class `SignedDistanceFieldOptions`, constructed from
`(width, height, resolution)`. -/
structure SignedDistanceFieldOptions where
  width_ : ℚ
  height_ : ℚ
  resolution_ : ℚ
  deriving DecidableEq, Repr

/-- Options `SomeControllerOptions`. -/
structure SomeControllerOptions where
  timestep : ℚ
  horizon : ℚ
  num_samples : Int
  deriving DecidableEq, Repr

/-- Cost coefficients of `SDFCostOptions`. -/
structure Coefficients where
  path : ℚ
  velocity : ℚ
  acceleration : ℚ
  angular_acceleration : ℚ
  deriving DecidableEq, Repr

/-- Options `SDFCostOptions`. -/
structure SDFCostOptions where
  velocity_limit : ℚ
  coefficients : Coefficients
  deriving DecidableEq, Repr

/-- Acceleration bound of `DifferentialDriveOptions`. -/
structure AccelerationBound where
  lower : ℚ
  upper : ℚ
  deriving DecidableEq, Repr

/-- Options `DifferentialDriveOptions`. -/
structure DifferentialDriveOptions where
  acceleration_bound : AccelerationBound
  axle_length : ℚ
  deriving DecidableEq, Repr

/-- Modelled from the spec: the `TrajectoryController` object of the absent
header.  It is represented by the four arguments its constructor is called
with in `initController`, together with whatever the controller keeps between
cycles (`mem`). -/
structure TrajectoryController (σ : Type) where
  sdf_options : SignedDistanceFieldOptions
  controller_options : SomeControllerOptions
  differential_drive_options : DifferentialDriveOptions
  sdf_cost_options : SDFCostOptions
  mem : σ

/-- Modelled from the spec: the operations of the absent headers that the node
calls: the constructor `RobotState(odom)`, the initial internal state of a
freshly constructed `TrajectoryController`, and
`TrajectoryController::getControls(path, state)`, which may update the
controller and returns a `ControllerResult`.  Following the data model of the
spec (the selected index "must be a valid index into the set"), every result
has its `best_particle` in bounds. -/
structure Collaborators (σ RS : Type) where
  robotState : Odometry → RS
  fresh : σ
  getControls : TrajectoryController σ → Path → RS → TrajectoryController σ × ControllerResult
  best_valid : ∀ c p s, (getControls c p s).2.optimization_result.bestInBounds

/-! ## The node `ROSTrajectoryController` -/

/-- Members of `ROSTrajectoryController` that the embedded methods read or
write.  A null `path_` and an empty `state_` are `none`. -/
structure ROSTrajectoryController (σ RS : Type) where
  debug_ : Bool
  path_ : Option Path
  state_ : Option RS
  sdf_options_ : SignedDistanceFieldOptions
  controller_ : TrajectoryController σ

/-- Observable effects of the node's methods, in program order. -/
inductive Event (RS : Type) where
  /-- One `ROS_WARN_STREAM_THROTTLE_NAMED(period, name, msg)` statement reached. -/
  | warn (period : Nat) (name : String) (msg : String)
  /-- Call `controller_->getControls(path, state)`. -/
  | controllerGetControls (path : Path) (state : RS)
  /-- Call `motor_pub_.publish`. -/
  | motorPublish (cmd : VelocityPair)
  /-- Call `debug_rollout_pub_.publish`. -/
  | rolloutPublish (markers : MarkerArray)
  /-- Call `debug_signed_distance_field_pub_.publish`. -/
  | sdfPublish (cloud : PointCloud)

/-- Is the event a call of the underlying controller? -/
def Event.isControllerCall {RS : Type} : Event RS → Bool
  | .controllerGetControls _ _ => true
  | _ => false

/-- Is the event a message on the motor publisher? -/
def Event.isMotor {RS : Type} : Event RS → Bool
  | .motorPublish _ => true
  | _ => false

/-- Is the event a message on the rollout debug publisher? -/
def Event.isRollout {RS : Type} : Event RS → Bool
  | .rolloutPublish _ => true
  | _ => false

/-- Is the event a message on the signed-distance-field debug publisher? -/
def Event.isSdf {RS : Type} : Event RS → Bool
  | .sdfPublish _ => true
  | _ => false

/-- Arguments of the calls of the underlying controller, in order. -/
def controllerCalls {RS : Type} : List (Event RS) → List (Path × RS)
  | [] => []
  | .controllerGetControls p s :: es => (p, s) :: controllerCalls es
  | _ :: es => controllerCalls es

/-- Commands sent on the motor publisher, in order. -/
def motorCommands {RS : Type} : List (Event RS) → List VelocityPair
  | [] => []
  | .motorPublish c :: es => c :: motorCommands es
  | _ :: es => motorCommands es

/-- Marker arrays sent on the rollout debug publisher, in order. -/
def rolloutMessages {RS : Type} : List (Event RS) → List MarkerArray
  | [] => []
  | .rolloutPublish m :: es => m :: rolloutMessages es
  | _ :: es => rolloutMessages es

/-- Point clouds sent on the signed-distance-field debug publisher, in order. -/
def sdfMessages {RS : Type} : List (Event RS) → List PointCloud
  | [] => []
  | .sdfPublish m :: es => m :: sdfMessages es
  | _ :: es => sdfMessages es

/-- Method `publishAsPCL`: the cloud it publishes.  The outer loop runs over
the columns `i`, the inner one over the rows `j`. -/
def publishAsPCL (mat : Mat) (resolution : ℚ) (frame_id : String) (stamp : Time) : PointCloud :=
  { frame_id := frame_id
    stamp := stamp
    points := (List.range mat.cols).flatMap fun (i : Nat) =>
      (List.range mat.rows).map fun (j : Nat) =>
        { x := ((i : ℚ) - (mat.cols : ℚ) / 2) * resolution
          y := ((mat.rows : ℚ) / 2 - (j : ℚ)) * resolution
          intensity_cos_of := mat.at j i } }

/-- Method `toLineStrip`. -/
def toLineStrip (states : List State) (id : Int) (width r g b a : ℚ) (stamp : Time) : Marker :=
  { frame_id := "/odom"
    stamp := stamp
    ns := "rollout"
    id := id
    scale_x := width
    color_r := r
    color_g := g
    color_b := b
    color_a := a
    type_ := 4
    points := states.map fun state => { x := state.x, y := state.y, z := 0 } }

/-- The range-for loop of `visualizeRollout`: one thin line strip per
particle, numbered by the running counter `id++`.  Returns the counter and
the markers after the loop.  The counter is an `int` that counts the
particles of one vector held in memory; it is an unbounded integer here. -/
def rolloutLoop (stamp : Time) : List Particle → Int → List Marker → Int × List Marker
  | [], id, markers => (id, markers)
  | particle :: rest, id, markers =>
    rolloutLoop stamp rest (id + 1)
      (markers ++ [toLineStrip particle.state_vec_ id (1 / 1000) (97 / 100) (43 / 100) (48 / 100)
        (8 / 10) stamp])

/-- Element `particles[best_particle]` of the `std::vector`; an index outside
the vector is undefined behaviour (`none`). -/
def particleAt (particles : List Particle) (i : Int) : Option Particle :=
  if 0 ≤ i then particles.get? i.toNat else none

/-- Method `visualizeRollout`: the marker array it publishes. -/
def visualizeRollout (optimization_result : OptimizationResult) (stamp : Time) :
    Option MarkerArray :=
  let (id, markers) := rolloutLoop stamp optimization_result.particles 0 []
  match particleAt optimization_result.particles optimization_result.best_particle with
  | none => none
  | some best_particle =>
    some { markers := markers ++ [toLineStrip best_particle.state_vec_ id (1 / 100) 1 1 1 (8 / 10) stamp] }

/-- Method `visualizeSignedDistanceField`: the cloud it publishes. -/
def visualizeSignedDistanceField (sdf_options_ : SignedDistanceFieldOptions)
    (signed_distance_field : Mat) (stamp : Time) : PointCloud :=
  publishAsPCL signed_distance_field sdf_options_.resolution_ "/odom" stamp

/-- Method `ROSTrajectoryController::getControls`. -/
def getControls {σ RS : Type} (d : Collaborators σ RS) (self : ROSTrajectoryController σ RS)
    (stamp : Time) : Option (ROSTrajectoryController σ RS × List (Event RS)) :=
  match self.path_ with
  | none =>
    some (self, [Event.warn 1 "ROSTrajectoryController::getControls:path_null" "Path is null"])
  | some path =>
    match self.state_ with
    | none =>
      some (self, [Event.warn 1 "ROSTrajectoryController::getControls:state_null" "State is null"])
    | some state =>
      let controller_results := d.getControls self.controller_ path state
      let self1 := { self with controller_ := controller_results.1 }
      if self.debug_ then
        match visualizeRollout controller_results.2.optimization_result stamp with
        | none => none
        | some marker_array =>
          some (self1,
            [Event.controllerGetControls path state,
             Event.rolloutPublish marker_array,
             Event.sdfPublish (visualizeSignedDistanceField self.sdf_options_
               controller_results.2.signed_distance_field stamp)])
      else
        some (self1, [Event.controllerGetControls path state])

/-- Method `pathCallback`.  The argument is the message delivered by the
subscription (a non-null pointer). -/
def pathCallback {σ RS : Type} (d : Collaborators σ RS) (self : ROSTrajectoryController σ RS)
    (path : Path) : Option (ROSTrajectoryController σ RS × List (Event RS)) :=
  getControls d { self with path_ := some path } path.stamp

/-- Method `odomCallback`. -/
def odomCallback {σ RS : Type} (d : Collaborators σ RS) (self : ROSTrajectoryController σ RS)
    (odom : Odometry) : Option (ROSTrajectoryController σ RS × List (Event RS)) :=
  getControls d { self with state_ := some (d.robotState odom) } odom.stamp

/-- The parameter server as the node reads it: the value stored under a
name, by the type of the variable it is loaded into, or `none` when the name
is not set. -/
structure ParamServer where
  floats : String → Option ℚ
  ints : String → Option Int
  bools : String → Option Bool
  strings : String → Option String

/-- A configuration error that ends the construction of the node. -/
inductive ConfigError where
  /-- A parameter that is loaded without a default is not set. -/
  | missingParameter (name : String)
  /-- A loaded value is outside the range that the configuration allows. -/
  | invalidValue (name : String)
  deriving DecidableEq, Repr

/-- Modelled from the spec: the helper `igvc::getParam(pNh, name, var)` of the
header `igvc_utils/NodeUtils.hpp`, which is not part of the sources.  It loads
the value stored under `name`; it takes no default, and following the
specification ("must never silently substitute defaults") a name that is not
set is a configuration error. -/
def getParam {α : Type} (table : String → Option α) (name : String) : Except ConfigError α :=
  match table name with
  | some v => Except.ok v
  | none => Except.error (ConfigError.missingParameter name)

/-- The helper `igvc::param(pNh, name, var, default)` of the same absent
header, as its call in the constructor reads: the value stored under `name`,
or the default passed. -/
def param {α : Type} (table : String → Option α) (name : String) (default : α) : α :=
  (table name).getD default

/-- Modelled from the spec: the constructor
`SignedDistanceFieldOptions(width, height, resolution)` of the header
`igvc_navigation/signed_distance_field.h`, which is not part of the sources.
Following the specification (cost-field extent with "resolution>0", "validated
at construction time", "resolution ≤ 0 → construction fails fast with a
configuration error") a resolution that is not positive is rejected; the
values are stored as they are otherwise. -/
def SignedDistanceFieldOptions.make (width height resolution : ℚ) :
    Except ConfigError SignedDistanceFieldOptions :=
  if resolution ≤ 0 then Except.error (ConfigError.invalidValue "resolution")
  else Except.ok { width_ := width, height_ := height, resolution_ := resolution }

/-- Modelled from the spec: the constructor `TrajectoryController(sdf_options,
controller_options, differential_drive_options, sdf_cost_options)` of the
header `trajectory_controller.h`, which is not part of the sources.  Following
the specification ("timestep ≤ 0, horizon ≤ 0, num_samples ≤ 0, ..., any
negative coefficient → construction fails fast with a configuration error;
the Orchestrator must never silently substitute defaults") it rejects such
options and stores the others as they are; `fresh` is the internal state of a
new controller. -/
def TrajectoryController.make {σ : Type} (fresh : σ) (sdf_options : SignedDistanceFieldOptions)
    (controller_options : SomeControllerOptions)
    (differential_drive_options : DifferentialDriveOptions) (sdf_cost_options : SDFCostOptions) :
    Except ConfigError (TrajectoryController σ) :=
  if controller_options.timestep ≤ 0 then Except.error (ConfigError.invalidValue "timestep")
  else if controller_options.horizon ≤ 0 then Except.error (ConfigError.invalidValue "horizon")
  else if controller_options.num_samples ≤ 0 then
    Except.error (ConfigError.invalidValue "num_samples")
  else if sdf_cost_options.coefficients.path < 0 then
    Except.error (ConfigError.invalidValue "coefficients.path")
  else if sdf_cost_options.coefficients.velocity < 0 then
    Except.error (ConfigError.invalidValue "coefficients.velocity")
  else if sdf_cost_options.coefficients.acceleration < 0 then
    Except.error (ConfigError.invalidValue "coefficients.acceleration")
  else if sdf_cost_options.coefficients.angular_acceleration < 0 then
    Except.error (ConfigError.invalidValue "coefficients.angular_acceleration")
  else
    Except.ok
      { sdf_options := sdf_options
        controller_options := controller_options
        differential_drive_options := differential_drive_options
        sdf_cost_options := sdf_cost_options
        mem := fresh }

/-- Topic names loaded by `initSubscribeAndPublish`; the two debug topics are
loaded only when `debug_` is set. -/
structure Topics where
  topic_path : String
  topic_odometry : String
  topic_motors : String
  topic_debug : Option (String × String)
  deriving DecidableEq, Repr

/-- Method `initSubscribeAndPublish`: the topic names under which it
advertises and subscribes. -/
def initSubscribeAndPublish (ps : ParamServer) (debug_ : Bool) : Except ConfigError Topics := do
  let topic_path ← getParam ps.strings "topics/path"
  let topic_odometry ← getParam ps.strings "topics/odometry"
  let topic_motors ← getParam ps.strings "topics/motors"
  if debug_ then
    let topic_debug_rollout ← getParam ps.strings "topics/debug/rollout"
    let topic_debug_signed_distance_field ←
      getParam ps.strings "topics/debug/signed_distance_field"
    return { topic_path := topic_path, topic_odometry := topic_odometry
             topic_motors := topic_motors
             topic_debug := some (topic_debug_rollout, topic_debug_signed_distance_field) }
  else
    return { topic_path := topic_path, topic_odometry := topic_odometry
             topic_motors := topic_motors, topic_debug := none }

/-- Method `initController`: the members `sdf_options_` and `controller_` it
sets, or the configuration error that one of its calls ends with. -/
def initController {σ RS : Type} (d : Collaborators σ RS) (ps : ParamServer) :
    Except ConfigError (SignedDistanceFieldOptions × TrajectoryController σ) := do
  let width ← getParam ps.floats "signed_distance_field/width"
  let height ← getParam ps.floats "signed_distance_field/height"
  let resolution ← getParam ps.floats "signed_distance_field/resolution"
  let timestep ← getParam ps.floats "controller/timestep"
  let horizon ← getParam ps.floats "controller/horizon"
  let num_samples ← getParam ps.ints "controller/samples"
  let velocity_limit ← getParam ps.floats "cost_function/max_velocity"
  let path ← getParam ps.floats "cost_function/coefficients/path"
  let velocity ← getParam ps.floats "cost_function/coefficients/velocity"
  let acceleration ← getParam ps.floats "cost_function/coefficients/acceleration"
  let angular_acceleration ← getParam ps.floats "cost_function/coefficients/angular_acceleration"
  let lower ← getParam ps.floats "model/acceleration_bound/lower"
  let upper ← getParam ps.floats "model/acceleration_bound/upper"
  let axle_length ← getParam ps.floats "model/axle_length"
  let some_controller_options : SomeControllerOptions :=
    { timestep := timestep, horizon := horizon, num_samples := num_samples }
  let sdf_cost_options : SDFCostOptions :=
    { velocity_limit := velocity_limit
      coefficients :=
        { path := path, velocity := velocity, acceleration := acceleration
          angular_acceleration := angular_acceleration } }
  let differential_drive_options : DifferentialDriveOptions :=
    { acceleration_bound := { lower := lower, upper := upper }, axle_length := axle_length }
  let sdf_options_ ← SignedDistanceFieldOptions.make width height resolution
  let controller_ ← TrajectoryController.make d.fresh sdf_options_ some_controller_options
    differential_drive_options sdf_cost_options
  return (sdf_options_, controller_)

/-- Constructor `ROSTrajectoryController()` up to its idle loop: `state_` is
`std::nullopt`, `path_` is the null pointer, `debug_` is the parameter
`node/debug` with default `true`. -/
def construct {σ RS : Type} (d : Collaborators σ RS) (ps : ParamServer) :
    Except ConfigError (ROSTrajectoryController σ RS) := do
  let debug_ := param ps.bools "node/debug" true
  let _ ← initSubscribeAndPublish ps debug_
  let members ← initController d ps
  return { debug_ := debug_, path_ := none, state_ := none, sdf_options_ := members.1
           controller_ := members.2 }

/-- An invalid configuration in the words of the specification: the value set
for the timestep, the horizon, the number of samples or the field resolution
is not positive, or the value set for a cost coefficient is negative. -/
def invalidConfiguration (ps : ParamServer) : Prop :=
  (∃ v, ps.floats "controller/timestep" = some v ∧ v ≤ 0) ∨
  (∃ v, ps.floats "controller/horizon" = some v ∧ v ≤ 0) ∨
  (∃ v, ps.ints "controller/samples" = some v ∧ v ≤ 0) ∨
  (∃ v, ps.floats "signed_distance_field/resolution" = some v ∧ v ≤ 0) ∨
  (∃ v, ps.floats "cost_function/coefficients/path" = some v ∧ v < 0) ∨
  (∃ v, ps.floats "cost_function/coefficients/velocity" = some v ∧ v < 0) ∨
  (∃ v, ps.floats "cost_function/coefficients/acceleration" = some v ∧ v < 0) ∨
  (∃ v, ps.floats "cost_function/coefficients/angular_acceleration" = some v ∧ v < 0)

/-- One message delivered to the node. -/
inductive Message where
  | path (p : Path)
  | odom (o : Odometry)
  deriving DecidableEq, Repr

/-- The callback that a delivered message runs. -/
def deliver {σ RS : Type} (d : Collaborators σ RS) (self : ROSTrajectoryController σ RS) :
    Message → Option (ROSTrajectoryController σ RS × List (Event RS))
  | .path p => pathCallback d self p
  | .odom o => odomCallback d self o

/-- Callbacks run one after the other for a sequence of delivered messages;
the events of all of them are concatenated. -/
def deliverAll {σ RS : Type} (d : Collaborators σ RS) :
    ROSTrajectoryController σ RS → List Message →
      Option (ROSTrajectoryController σ RS × List (Event RS))
  | self, [] => some (self, [])
  | self, m :: ms =>
    match deliver d self m with
    | none => none
    | some (self1, es1) =>
      match deliverAll d self1 ms with
      | none => none
      | some (self2, es2) => some (self2, es1 ++ es2)

/-- The path of the last path message of a sequence, if any. -/
def lastPath : List Message → Option Path
  | [] => none
  | .path p :: ms => (lastPath ms).orElse fun _ => some p
  | .odom _ :: ms => lastPath ms

/-- The last odometry message of a sequence, if any. -/
def lastOdom : List Message → Option Odometry
  | [] => none
  | .odom o :: ms => (lastOdom ms).orElse fun _ => some o
  | .path _ :: ms => lastOdom ms

/-! ### A concrete instance, used to evaluate the definitions -/

/-- A robot state that keeps the planar pose of the odometry message. -/
structure PlanarState where
  x : ℚ
  y : ℚ
  yaw : ℚ
  deriving DecidableEq, Repr

/-- A controller result with two particles, the second one selected. -/
def sampleResult : ControllerResult :=
  { optimization_result :=
      { particles := [{ state_vec_ := [{ x := 0, y := 0 }, { x := 1, y := 0 }] },
                      { state_vec_ := [{ x := 0, y := 0 }, { x := 1, y := 1 }] }]
        best_particle := 1 }
    signed_distance_field := { rows := 1, cols := 2, data := [0, 1] } }

/-- Collaborators whose controller counts its cycles and always returns
`sampleResult`. -/
def sampleCollaborators : Collaborators Nat PlanarState :=
  { robotState := fun o => { x := o.x, y := o.y, yaw := o.yaw }
    fresh := 0
    getControls := fun c _ _ => ({ c with mem := c.mem + 1 }, sampleResult)
    best_valid := fun _ _ _ => (by decide : sampleResult.optimization_result.bestInBounds) }

/-- A parameter server with a valid configuration and the debug flag given. -/
def sampleServer (debug : Bool) : ParamServer :=
  { floats := fun name => List.lookup name
      [("signed_distance_field/width", 10), ("signed_distance_field/height", 10),
       ("signed_distance_field/resolution", 1), ("controller/timestep", 1),
       ("controller/horizon", 3), ("cost_function/max_velocity", 1),
       ("cost_function/coefficients/path", 1), ("cost_function/coefficients/velocity", 1),
       ("cost_function/coefficients/acceleration", 1),
       ("cost_function/coefficients/angular_acceleration", 1),
       ("model/acceleration_bound/lower", -1), ("model/acceleration_bound/upper", 1),
       ("model/axle_length", 1)]
    ints := fun name => List.lookup name [("controller/samples", 2)]
    bools := fun name => List.lookup name [("node/debug", debug)]
    strings := fun name => List.lookup name
      [("topics/path", "/path"), ("topics/odometry", "/odometry/filtered"),
       ("topics/motors", "/motors"), ("topics/debug/rollout", "/rollout"),
       ("topics/debug/signed_distance_field", "/signed_distance_field")] }

/-- The node right after construction from `sampleServer debug`. -/
def sampleNode (debug : Bool) : ROSTrajectoryController Nat PlanarState :=
  { debug_ := debug
    path_ := none
    state_ := none
    sdf_options_ := { width_ := 10, height_ := 10, resolution_ := 1 }
    controller_ :=
      { sdf_options := { width_ := 10, height_ := 10, resolution_ := 1 }
        controller_options := { timestep := 1, horizon := 3, num_samples := 2 }
        differential_drive_options :=
          { acceleration_bound := { lower := -1, upper := 1 }, axle_length := 1 }
        sdf_cost_options :=
          { velocity_limit := 1
            coefficients :=
              { path := 1, velocity := 1, acceleration := 1, angular_acceleration := 1 } }
        mem := 0 } }

/-- A path with two way points. -/
def samplePath : Path :=
  { stamp := { sec := 1, nsec := 0 }, poses := [{ x := 0, y := 0 }, { x := 10, y := 0 }] }

/-- A path without way points. -/
def emptyPath : Path :=
  { stamp := { sec := 2, nsec := 0 }, poses := [] }

/-- An odometry message. -/
def sampleOdom : Odometry :=
  { stamp := { sec := 3, nsec := 0 }, x := 0, y := -2, yaw := 0, linear := 0, angular := 0 }

/-- The robot state made from `sampleOdom`. -/
def sampleState : PlanarState :=
  sampleCollaborators.robotState sampleOdom

/-- The node after construction and one odometry message: a state is stored,
no path yet. -/
def nodeWithState (debug : Bool) : ROSTrajectoryController Nat PlanarState :=
  { sampleNode debug with state_ := some sampleState }

/-- The node after construction and one path message: a path is stored, no
state yet. -/
def nodeWithPath (debug : Bool) : ROSTrajectoryController Nat PlanarState :=
  { sampleNode debug with path_ := some samplePath }

/-- The server `sampleServer true` with the timestep set to 0. -/
def zeroTimestepServer : ParamServer :=
  { sampleServer true with
    floats := fun name =>
      if name = "controller/timestep" then some 0 else (sampleServer true).floats name }

/-- The server `sampleServer true` with the velocity coefficient set to
`-1`. -/
def negativeCoefficientServer : ParamServer :=
  { sampleServer true with
    floats := fun name =>
      if name = "cost_function/coefficients/velocity" then some (-1)
      else (sampleServer true).floats name }

end RosTrajectoryController

namespace NewMapper

/-! ## The mapper `new_mapper/main.cpp` -/

/-- Function `std::round` on a `double`: to the nearest integer, halves away
from zero. -/
def cround (q : ℚ) : Int :=
  if 0 ≤ q then Rat.floor (q + 1 / 2) else Rat.ceil (q - 1 / 2)

/-- Integral part of a `double`, as taken by a conversion to `int`. -/
def ctrunc (q : ℚ) : Int :=
  if 0 ≤ q then Rat.floor q else Rat.ceil q

/-- Conversion of an integral `double` to `int`; a value outside the range of
`int` is undefined behaviour (`none`). -/
def toInt (v : Int) : Option Int :=
  if -2 ^ 31 ≤ v ∧ v < 2 ^ 31 then some v else none

/-- The global variables of the mapper that `frame_callback` and `main` use. -/
structure Globals where
  topics : String
  resolution : ℚ
  orientation : ℚ
  start_x : Int
  start_y : Int
  length_y : Int
  width_x : Int
  debug : Bool
  cur_x : ℚ
  cur_y : ℚ
  deriving DecidableEq, Repr

/-- The globals at program start: objects of static storage duration are
zero-initialised. -/
def Globals.zero : Globals :=
  { topics := "", resolution := 0, orientation := 0, start_x := 0, start_y := 0, length_y := 0,
    width_x := 0, debug := false, cur_x := 0, cur_y := 0 }

/-- Content of the matrix `*published_map`, addressed as `at<uchar>(row, col)`.
The matrix is created by `main` as `cv::Mat(length_y, width_x, CV_8UC1)`;
entries at other indices stand for the memory that an unchecked access
outside the matrix reaches. -/
abbrev Grid := Int → Int → Nat

/-- Assignment `published_map->at<uchar>(row, col) = v`. -/
def Grid.set (m : Grid) (row col : Int) (v : Nat) : Grid :=
  fun r c => if r = row ∧ c = col then v else m r c

/-- One access `published_map->at<uchar>(row, col)`. -/
structure Access where
  write : Bool
  row : Int
  col : Int
  deriving DecidableEq, Repr

/-- The access lies inside the matrix of `length_y` rows and `width_x`
columns. -/
def Access.inGrid (g : Globals) (a : Access) : Prop :=
  0 ≤ a.row ∧ a.row < g.length_y ∧ 0 ≤ a.col ∧ a.col < g.width_x

instance (g : Globals) (a : Access) : Decidable (a.inGrid g) := by
  unfold Access.inGrid
  infer_instance

/-- Point `pcl::PointXYZ` of the transformed cloud (the height is not read). -/
structure PointXYZ where
  x : ℚ
  y : ℚ
  deriving DecidableEq, Repr

/-- Point `pcl::PointXYZRGB` of the debug cloud. -/
structure PointXYZRGB where
  r : Nat
  g : Nat
  b : Nat
  x : ℚ
  y : ℚ
  deriving DecidableEq, Repr

/-- Function `rotate`; `co` and `si` are the values of `cos(orientation)` and
`sin(orientation)`. -/
def rotate (co si : ℚ) (x y : ℚ) : ℚ × ℚ :=
  let newX := x * co + y * -1 * si
  let newY := x * si + y * co
  (newX, newY)

/-- Function `odom_callback`; `yaw` is the yaw angle that the message's
orientation quaternion yields. -/
def odom_callback (g : Globals) (x y yaw : ℚ) : Globals :=
  { g with cur_x := x, cur_y := y, orientation := yaw }

/-- Local state of the point loop of `frame_callback`, with the accesses to
the matrix and the warnings logged so far. -/
structure LoopState where
  offMap : Bool
  count : Int
  published_map : Grid
  accesses : List Access
  warnings : List String

/-- Body of the point loop of `frame_callback` for one point.  A division by
a zero resolution gives a non-finite `double` whose conversion to `int` is
undefined, like that of a value outside the range of `int`. -/
def pointStep (g : Globals) (co si : ℚ) (st : LoopState) (point : PointXYZ) : Option LoopState :=
  let (x_loc, y_loc) := rotate co si point.x point.y
  if g.resolution = 0 then none else
  match toInt (cround (x_loc / g.resolution + g.cur_x / g.resolution + g.start_x)),
        toInt (cround (y_loc / g.resolution + g.cur_y / g.resolution + g.start_y)) with
  | some point_x, some point_y =>
    if point_x ≥ 0 ∧ point_y ≥ 0 ∧ point_x < g.length_y ∧ g.start_y < g.width_x then
      some { st with
        published_map := st.published_map.set point_x point_y 255
        accesses := st.accesses ++ [{ write := true, row := point_x, col := point_y }]
        count := st.count + 1 }
    else if !st.offMap then
      some { st with
        warnings := st.warnings ++ ["Some points out of range, won't be put on map."]
        offMap := true }
    else some st
  | _, _ => none

/-- The point loop of `frame_callback`. -/
def pointLoop (g : Globals) (co si : ℚ) : LoopState → List PointXYZ → Option LoopState
  | st, [] => some st
  | st, point :: rest =>
    match pointStep g co si st point with
    | none => none
    | some st1 => pointLoop g co si st1 rest

/-- Body of the inner loop of the debug scan for the cell `(i, j)`: the
accesses made, and the point added to the cloud when the cell holds 255. -/
def debugCell (g : Globals) (m : Grid) (i j : Int) : List Access × List PointXYZRGB :=
  if m i j = 255 then
    ([{ write := false, row := i, col := j }, { write := false, row := i, col := j },
      { write := false, row := i, col := j }],
     [{ r := 255, g := m i j, b := m i j
        x := ((i - g.start_x : Int) : ℚ) * g.resolution
        y := ((j - g.start_y : Int) : ℚ) * g.resolution }])
  else ([{ write := false, row := i, col := j }], [])

/-- The debug scan of `frame_callback`: `i` runs below `width_x`, `j` below
`length_y`. -/
def debugScan (g : Globals) (m : Grid) : List Access × List PointXYZRGB :=
  let cells := (List.range g.width_x.toNat).flatMap fun (i : Nat) =>
    (List.range g.length_y.toNat).map fun (j : Nat) => debugCell g m i j
  (cells.flatMap Prod.fst, cells.flatMap Prod.snd)

/-- Message `igvc_msgs::map` as filled in by `frame_callback`. -/
structure MapMsg where
  length : Int
  width : Int
  resolution : ℚ
  orientation : ℚ
  deriving DecidableEq, Repr

/-- What one run of `frame_callback` does. -/
structure FrameResult where
  published_map : Grid
  accesses : List Access
  warnings : List String
  count : Int
  map_msg : MapMsg
  debug_cloud : Option (List PointXYZRGB)

/-- Function `frame_callback` from the transformed cloud on. -/
def frame_callback (g : Globals) (co si : ℚ) (published_map : Grid) (transformed : List PointXYZ) :
    Option FrameResult :=
  match pointLoop g co si
      { offMap := false, count := 0, published_map := published_map, accesses := [],
        warnings := [] } transformed with
  | none => none
  | some st =>
    if g.resolution = 0 then none else
    match toInt (ctrunc (g.start_x + g.cur_x / g.resolution)),
          toInt (ctrunc (g.start_y + g.cur_y / g.resolution)) with
    | some row, some col =>
      let m := st.published_map.set row col 100
      let acc := st.accesses ++ [{ write := true, row := row, col := col }]
      let map_msg : MapMsg :=
        { length := g.length_y, width := g.width_x, resolution := g.resolution,
          orientation := g.orientation }
      if g.debug then
        let scan := debugScan g m
        some { published_map := m, accesses := acc ++ scan.1, warnings := st.warnings,
               count := st.count, map_msg := map_msg, debug_cloud := some scan.2 }
      else
        some { published_map := m, accesses := acc, warnings := st.warnings, count := st.count,
               map_msg := map_msg, debug_cloud := none }
    | _, _ => none

/-- The parameter server as seen through `pNh.hasParam` and the overloads of
`pNh.getParam` that `main` uses. -/
structure ParamServer where
  hasParam : String → Bool
  getString : String → Option String
  getInt : String → Option Int
  getDouble : String → Option ℚ
  getBool : String → Option Bool

/-- Observable steps of `main`, in program order. -/
inductive MainEvent where
  | error (msg : String)
  | getParam (name : String)
  | subscribe (topic : String)
  | newMat (rows cols : Int)
  | advertise (topic : String)
  | spin
  deriving DecidableEq, Repr

/-- Condition of the start-up check of `main`, operator by operator.  The
single `&` between the checks of `start_X` and `start_Y` binds tighter than
`&&`; on the two `bool` operands it has the truth value of their
conjunction. -/
def missingParameters (ps : ParamServer) : Bool :=
  !ps.hasParam "topics" && !ps.hasParam "occupancy_grid_length" &&
  !ps.hasParam "occupancy_grid_length" && !ps.hasParam "occupancy_grid_resolution" &&
  (!ps.hasParam "start_X" && !ps.hasParam "start_Y") &&
  !ps.hasParam "debug"

/-- The parameters that `main` reads with `pNh.getParam` after the check. -/
def parametersRead : List String :=
  ["topics", "occupancy_grid_length", "occupancy_grid_width", "occupancy_grid_resolution",
   "start_X", "start_Y", "orientation", "debug"]

/-- The globals after the `getParam` calls of `main`; a parameter that is not
there leaves its variable as it was.  `cont_start_x` and `cont_start_y` are
the initial values of the two local variables. -/
def loadParameters (ps : ParamServer) (g : Globals) (cont_start_x cont_start_y : ℚ) :
    Globals × ℚ × ℚ :=
  ({ g with
      topics := (ps.getString "topics").getD g.topics
      length_y := (ps.getInt "occupancy_grid_length").getD g.length_y
      width_x := (ps.getInt "occupancy_grid_width").getD g.width_x
      resolution := (ps.getDouble "occupancy_grid_resolution").getD g.resolution
      orientation := (ps.getDouble "orientation").getD g.orientation
      debug := (ps.getBool "debug").getD g.debug },
   (ps.getDouble "start_X").getD cont_start_x,
   (ps.getDouble "start_Y").getD cont_start_y)

/-- The conversion "from meters to grid" of `main`. -/
def toGridUnits (g : Globals) (cont_start_x cont_start_y : ℚ) : Option Globals :=
  if g.resolution = 0 then none else
  match toInt (cround (g.length_y / g.resolution)), toInt (cround (g.width_x / g.resolution)),
        toInt (cround (cont_start_x / g.resolution)), toInt (cround (cont_start_y / g.resolution)) with
  | some length_y, some width_x, some start_x, some start_y =>
    some { g with length_y := length_y, width_x := width_x, start_x := start_x, start_y := start_y }
  | _, _, _, _ => none

/-- The words of `topics`, separated by white space. -/
def tokens (topics : String) : List String :=
  (topics.split Char.isWhitespace).filter fun t => t ≠ ""

/-- What `main` does: its steps, and the globals it sets up when the unit
conversion is defined. -/
structure MainResult where
  events : List MainEvent
  globals : Option Globals
  deriving DecidableEq, Repr

/-- Function `main` up to `ros::spin()`. -/
def main (ps : ParamServer) (cont_start_x cont_start_y : ℚ) : MainResult :=
  if missingParameters ps then
    { events := [MainEvent.error "missing parameters exiting"], globals := none }
  else
    let loaded := loadParameters ps Globals.zero cont_start_x cont_start_y
    let reads := parametersRead.map MainEvent.getParam
    match toGridUnits loaded.1 loaded.2.1 loaded.2.2 with
    | none => { events := reads, globals := none }
    | some g =>
      { events := reads ++ [MainEvent.subscribe "/odometry/filtered"] ++
          (tokens g.topics).map MainEvent.subscribe ++
          [MainEvent.newMat g.length_y g.width_x, MainEvent.advertise "/map"] ++
          (if g.debug then [MainEvent.advertise "/map_debug", MainEvent.advertise "/map_debug_pcl"]
           else []) ++ [MainEvent.spin]
        globals := some g }

/-- The parameters that `main` goes on to read and that the start-up check is
about. -/
def requiredParameters : List String :=
  ["topics", "occupancy_grid_length", "occupancy_grid_width", "occupancy_grid_resolution",
   "start_X", "start_Y", "debug"]

/-- Did `main` stop at the start-up check? -/
def MainResult.rejected (r : MainResult) : Prop :=
  r.events = [MainEvent.error "missing parameters exiting"]

instance (r : MainResult) : Decidable r.rejected := by
  unfold MainResult.rejected
  infer_instance

/-! ### Concrete inputs, used to evaluate the definitions -/

/-- A parameter server that holds every parameter of the mapper except
`debug`: a grid of 2 m by 3 m at a resolution of 1 m, starting at the origin. -/
def serverWithoutDebug : ParamServer :=
  { hasParam := fun n => n ∈ ["topics", "occupancy_grid_length", "occupancy_grid_width",
      "occupancy_grid_resolution", "start_X", "start_Y", "orientation"]
    getString := fun n => if n = "topics" then some "/scan" else none
    getInt := fun n =>
      if n = "occupancy_grid_length" then some 2
      else if n = "occupancy_grid_width" then some 3 else none
    getDouble := fun n =>
      if n = "occupancy_grid_resolution" then some 1
      else if n = "start_X" then some 0
      else if n = "start_Y" then some 0
      else if n = "orientation" then some 0 else none
    getBool := fun _ => none }

/-- A parameter server that holds `topics` only. -/
def serverTopicsOnly : ParamServer :=
  { hasParam := fun n => n = "topics"
    getString := fun n => if n = "topics" then some "/scan" else none
    getInt := fun _ => none
    getDouble := fun _ => none
    getBool := fun _ => none }

/-- An empty parameter server. -/
def serverEmpty : ParamServer :=
  { hasParam := fun _ => false
    getString := fun _ => none
    getInt := fun _ => none
    getDouble := fun _ => none
    getBool := fun _ => none }

/-- Globals of a mapper with a grid of 2 rows and 3 columns at resolution 1,
as `main` sets them up from `serverWithoutDebug`, with the debug flag given
and the robot at `(cur_x, cur_y)`, heading 0. -/
def sampleGlobals (debug : Bool) (cur_x cur_y : ℚ) : Globals :=
  { topics := "/scan", resolution := 1, orientation := 0, start_x := 0, start_y := 0,
    length_y := 2, width_x := 3, debug := debug, cur_x := cur_x, cur_y := cur_y }

/-- A matrix content with every entry zero. -/
def blankGrid : Grid := fun _ _ => 0

end NewMapper


namespace RosTrajectoryController

/-! ## Properties of the node -/

theorem particleAt_defined (particles : List Particle) (i : Int) (h0 : 0 ≤ i)
    (h1 : i < (particles.length : Int)) : ∃ p, particleAt particles i = some p := by
  have hlt : i.toNat < particles.length := by omega
  refine ⟨particles.get ⟨i.toNat, hlt⟩, ?_⟩
  simp [particleAt, h0, List.getElem?_eq_getElem hlt]

theorem visualizeRollout_defined (r : OptimizationResult) (stamp : Time) (h : r.bestInBounds) :
    ∃ ma, visualizeRollout r stamp = some ma := by
  obtain ⟨p, hp⟩ := particleAt_defined r.particles r.best_particle h.1 h.2
  simp [visualizeRollout, hp]

/-- Outcome of `getControls` when both inputs are stored: one call of the
underlying controller with them, nothing on the motor publisher, and one
message on each debug publisher exactly when `debug_` is set. -/
theorem getControls_cycle {σ RS : Type} (d : Collaborators σ RS)
    (self : ROSTrajectoryController σ RS) (stamp : Time) (p : Path) (s : RS)
    (hp : self.path_ = some p) (hs : self.state_ = some s) :
    ∃ r, getControls d self stamp = some r ∧
      r.1 = { self with controller_ := (d.getControls self.controller_ p s).1 } ∧
      controllerCalls r.2 = [(p, s)] ∧ motorCommands r.2 = [] ∧
      (rolloutMessages r.2).length = (if self.debug_ then 1 else 0) ∧
      (sdfMessages r.2).length = (if self.debug_ then 1 else 0) := by
  obtain ⟨ma, hma⟩ := visualizeRollout_defined (d.getControls self.controller_ p s).2.optimization_result
    stamp (d.best_valid self.controller_ p s)
  cases hd : self.debug_ <;>
    simp [getControls, hp, hs, hd, hma, controllerCalls, motorCommands, rolloutMessages, sdfMessages]

/-- Outcome of `getControls` when an input is missing: the object is left as
it is and the only effect is one throttled warning. -/
theorem getControls_idle {σ RS : Type} (d : Collaborators σ RS)
    (self : ROSTrajectoryController σ RS) (stamp : Time)
    (h : self.path_ = none ∨ self.state_ = none) :
    ∃ name msg, getControls d self stamp = some (self, [Event.warn 1 name msg]) := by
  cases hp : self.path_ with
  | none =>
    exact ⟨"ROSTrajectoryController::getControls:path_null", "Path is null", by
      simp [getControls, hp]⟩
  | some p =>
    cases hs : self.state_ with
    | none =>
      exact ⟨"ROSTrajectoryController::getControls:state_null", "State is null", by
        simp [getControls, hp, hs]⟩
    | some s => simp [hp, hs] at h

/-- C1: when the stored path is null or the stored robot state is empty,
`getControls` is a no-op: it returns with the object unchanged (so the stored
path and state are unchanged), it does not call the underlying controller and
it publishes nothing on the motor, rollout or signed-distance-field
publishers. -/
theorem getControls_noop_when_input_missing {σ RS : Type} (d : Collaborators σ RS)
    (self : ROSTrajectoryController σ RS) (stamp : Time)
    (h : self.path_ = none ∨ self.state_ = none) :
    ∃ events, getControls d self stamp = some (self, events) ∧
      controllerCalls events = [] ∧ motorCommands events = [] ∧
      rolloutMessages events = [] ∧ sdfMessages events = [] := by
  obtain ⟨name, msg, hg⟩ := getControls_idle d self stamp h
  exact ⟨_, hg, rfl, rfl, rfl, rfl⟩

/-- Witness of C1: the freshly constructed node, which has neither a path
nor a state. -/
theorem getControls_noop_when_input_missing_witness :
    ((sampleNode true).path_ = none ∨ (sampleNode true).state_ = none) ∧
    ∃ events, getControls sampleCollaborators (sampleNode true) ⟨0, 0⟩ = some (sampleNode true, events) ∧
      controllerCalls events = [] ∧ motorCommands events = [] ∧
      rolloutMessages events = [] ∧ sdfMessages events = [] :=
  ⟨Or.inl rfl, getControls_noop_when_input_missing sampleCollaborators (sampleNode true) ⟨0, 0⟩
    (Or.inl rfl)⟩

/-- No outcome of `getControls` has a message on the motor publisher: the
method has no call of `motor_pub_.publish`. -/
theorem getControls_motor_silent {σ RS : Type} (d : Collaborators σ RS)
    (self : ROSTrajectoryController σ RS) (stamp : Time) :
    ∃ r, getControls d self stamp = some r ∧ motorCommands r.2 = [] := by
  cases hp : self.path_ with
  | none =>
    obtain ⟨n, m, hg⟩ := getControls_idle d self stamp (Or.inl hp)
    exact ⟨_, hg, rfl⟩
  | some p =>
    cases hs : self.state_ with
    | none =>
      obtain ⟨n, m, hg⟩ := getControls_idle d self stamp (Or.inr hs)
      exact ⟨_, hg, rfl⟩
    | some st =>
      obtain ⟨r, hg, _, _, hm, _⟩ := getControls_cycle d self stamp p st hp hs
      exact ⟨r, hg, hm⟩

/-- C2 (the code departs from the claim): a path message followed by an
odometry message leaves both inputs stored and runs one cycle (one call of
the underlying controller with the stored path and state), yet nothing is
sent on the motor publisher. -/
theorem cycle_sends_no_motor_command :
    (deliverAll sampleCollaborators (sampleNode false)
        [Message.path samplePath, Message.odom sampleOdom]).map
      (fun r => (r.1.path_, r.1.state_, controllerCalls r.2, motorCommands r.2)) =
    some (some samplePath, some sampleState, [(samplePath, sampleState)], []) := by
  decide

/-- C3: a path message that arrives while a robot state `s` is stored makes
exactly one call of the underlying controller, with the new path and `s`; an
odometry message that arrives while a path `q` is stored makes exactly one
call, with `q` and the state made from the new message.  The stored value
that the message replaces plays no part. -/
theorem callback_runs_cycle_with_new_value {σ RS : Type} (d : Collaborators σ RS)
    (self : ROSTrajectoryController σ RS) :
    (∀ (p : Path) (s : RS), self.state_ = some s →
      ∃ r, pathCallback d self p = some r ∧ controllerCalls r.2 = [(p, s)]) ∧
    (∀ (o : Odometry) (q : Path), self.path_ = some q →
      ∃ r, odomCallback d self o = some r ∧ controllerCalls r.2 = [(q, d.robotState o)]) := by
  constructor
  · intro p s hs
    obtain ⟨r, hg, _, hc, _⟩ :=
      getControls_cycle d { self with path_ := some p } p.stamp p s rfl hs
    exact ⟨r, hg, hc⟩
  · intro o q hq
    obtain ⟨r, hg, _, hc, _⟩ :=
      getControls_cycle d { self with state_ := some (d.robotState o) } o.stamp q
        (d.robotState o) hq rfl
    exact ⟨r, hg, hc⟩

/-- Witness of C3: a new path at the node that stores `sampleState` (and an
older path), and a new odometry message at the node that stores
`samplePath`. -/
theorem callback_runs_cycle_with_new_value_witness :
    ({ nodeWithState true with path_ := some emptyPath }.state_ = some sampleState ∧
      ∃ r, pathCallback sampleCollaborators { nodeWithState true with path_ := some emptyPath }
          samplePath = some r ∧ controllerCalls r.2 = [(samplePath, sampleState)]) ∧
    ((nodeWithPath true).path_ = some samplePath ∧
      ∃ r, odomCallback sampleCollaborators (nodeWithPath true) sampleOdom = some r ∧
        controllerCalls r.2 = [(samplePath, sampleCollaborators.robotState sampleOdom)]) :=
  ⟨⟨rfl, (callback_runs_cycle_with_new_value sampleCollaborators
      { nodeWithState true with path_ := some emptyPath }).1 samplePath sampleState rfl⟩,
   ⟨rfl, (callback_runs_cycle_with_new_value sampleCollaborators (nodeWithPath true)).2
      sampleOdom samplePath rfl⟩⟩

/-- C4 as stated fails: the path without way points is degenerate, and its
delivery to a node that stores a robot state calls the underlying controller
with it. -/
theorem degenerate_path_reaches_controller :
    emptyPath.poses.length ≤ 1 ∧
    (pathCallback sampleCollaborators (nodeWithState false) emptyPath).map
      (fun r => controllerCalls r.2) = some [(emptyPath, sampleState)] := by
  decide

/-- C4 as amended: `getControls` does not look at the number of way points.
With a stored robot state, a stored path of zero or one way points is handed
to the underlying controller in exactly one call, as any other non-null path
is; so is such a path delivered to `pathCallback`. -/
theorem degenerate_path_runs_cycle {σ RS : Type} (d : Collaborators σ RS)
    (self : ROSTrajectoryController σ RS) (stamp : Time) (p : Path) (s : RS)
    (hdeg : p.poses.length ≤ 1) (hs : self.state_ = some s) :
    (self.path_ = some p →
      ∃ r, getControls d self stamp = some r ∧ controllerCalls r.2 = [(p, s)]) ∧
    (∃ r, pathCallback d self p = some r ∧ controllerCalls r.2 = [(p, s)]) := by
  have _ := hdeg
  constructor
  · intro hp
    obtain ⟨r, hg, _, hc, _⟩ := getControls_cycle d self stamp p s hp hs
    exact ⟨r, hg, hc⟩
  · obtain ⟨r, hg, _, hc, _⟩ :=
      getControls_cycle d { self with path_ := some p } p.stamp p s rfl hs
    exact ⟨r, hg, hc⟩

/-- Witness of C4 as amended: the path without way points at the node that
stores `sampleState`. -/
theorem degenerate_path_runs_cycle_witness :
    emptyPath.poses.length ≤ 1 ∧ (nodeWithState true).state_ = some sampleState ∧
    ∃ r, pathCallback sampleCollaborators (nodeWithState true) emptyPath = some r ∧
      controllerCalls r.2 = [(emptyPath, sampleState)] :=
  ⟨by decide, rfl,
    (degenerate_path_runs_cycle sampleCollaborators (nodeWithState true) ⟨0, 0⟩ emptyPath
      sampleState (by decide) rfl).2⟩

/-- C5: `getControls` always returns, and it publishes one rollout marker
array and one signed-distance-field cloud when `debug_` is set and both the
path and the state are stored, and none of either otherwise; in particular
none with `debug_` unset.  Flipping `debug_` changes neither the calls of the
underlying controller (whether one is made and with which arguments), nor the
motor output, nor the stored path and state. -/
theorem debug_bundle_only_with_debug {σ RS : Type} (d : Collaborators σ RS)
    (self : ROSTrajectoryController σ RS) (stamp : Time) :
    ∃ r, getControls d self stamp = some r ∧
      (rolloutMessages r.2).length =
        (if self.debug_ = true ∧ self.path_.isSome ∧ self.state_.isSome then 1 else 0) ∧
      (sdfMessages r.2).length =
        (if self.debug_ = true ∧ self.path_.isSome ∧ self.state_.isSome then 1 else 0) ∧
      ∃ r', getControls d { self with debug_ := !self.debug_ } stamp = some r' ∧
        controllerCalls r'.2 = controllerCalls r.2 ∧ motorCommands r'.2 = motorCommands r.2 ∧
        r'.1.path_ = r.1.path_ ∧ r'.1.state_ = r.1.state_ ∧ r'.1.controller_ = r.1.controller_ := by
  rcases Option.eq_none_or_eq_some self.path_ with hp | ⟨p, hp⟩
  · obtain ⟨n, m, hg⟩ := getControls_idle d self stamp (Or.inl hp)
    obtain ⟨n', m', hg'⟩ := getControls_idle d { self with debug_ := !self.debug_ } stamp
      (Or.inl hp)
    refine ⟨_, hg, ?_, ?_, _, hg', ?_⟩ <;>
      simp [hp, rolloutMessages, sdfMessages, controllerCalls, motorCommands]
  · rcases Option.eq_none_or_eq_some self.state_ with hs | ⟨st, hs⟩
    · obtain ⟨n, m, hg⟩ := getControls_idle d self stamp (Or.inr hs)
      obtain ⟨n', m', hg'⟩ := getControls_idle d { self with debug_ := !self.debug_ } stamp
        (Or.inr hs)
      refine ⟨_, hg, ?_, ?_, _, hg', ?_⟩ <;>
        simp [hs, rolloutMessages, sdfMessages, controllerCalls, motorCommands]
    · obtain ⟨r, hg, h1, hc, hm, hr, hsd⟩ := getControls_cycle d self stamp p st hp hs
      obtain ⟨r', hg', h1', hc', hm', _, _⟩ :=
        getControls_cycle d { self with debug_ := !self.debug_ } stamp p st hp hs
      refine ⟨r, hg, ?_, ?_, r', hg', ?_, ?_, ?_, ?_, ?_⟩
      · simp [hr, hp, hs]
      · simp [hsd, hp, hs]
      · rw [hc, hc']
      · rw [hm, hm']
      · rw [h1, h1']
      · rw [h1, h1']
      · rw [h1, h1']

/-- A sequenced step returns normally exactly when both parts do. -/
theorem bind_eq_ok {ε α β : Type} (x : Except ε α) (f : α → Except ε β) (b : β) :
    (x >>= f) = Except.ok b ↔ ∃ a, x = Except.ok a ∧ f a = Except.ok b := by
  cases x with
  | error e => simp [bind, Except.bind]
  | ok a => simp [bind, Except.bind]

/-- Helper `getParam` returns a value exactly when that value is set. -/
theorem getParam_eq_ok {α : Type} (table : String → Option α) (name : String) (v : α) :
    getParam table name = Except.ok v ↔ table name = some v := by
  unfold getParam
  cases table name <;> simp

/-- The options constructor returns exactly for a positive resolution, with
the values stored as given. -/
theorem sdfOptions_make_eq_ok (width height resolution : ℚ) (o : SignedDistanceFieldOptions) :
    SignedDistanceFieldOptions.make width height resolution = Except.ok o ↔
      0 < resolution ∧ o = { width_ := width, height_ := height, resolution_ := resolution } := by
  unfold SignedDistanceFieldOptions.make
  split
  · rename_i h
    simp only [reduceCtorEq, false_iff, not_and]
    intro hpos
    exact absurd hpos (not_lt.mpr h)
  · rename_i h
    simp only [Except.ok.injEq]
    constructor
    · intro ho
      exact ⟨not_le.mp h, ho.symm⟩
    · intro ho
      exact ho.2.symm

/-- The controller constructor returns exactly for a positive timestep,
horizon and number of samples and non-negative coefficients, with the options
stored as given. -/
theorem controller_make_eq_ok {σ : Type} (fresh : σ) (sdf_options : SignedDistanceFieldOptions)
    (controller_options : SomeControllerOptions)
    (differential_drive_options : DifferentialDriveOptions) (sdf_cost_options : SDFCostOptions)
    (c : TrajectoryController σ) :
    TrajectoryController.make fresh sdf_options controller_options differential_drive_options
        sdf_cost_options = Except.ok c ↔
      (0 < controller_options.timestep ∧ 0 < controller_options.horizon ∧
        0 < controller_options.num_samples ∧ 0 ≤ sdf_cost_options.coefficients.path ∧
        0 ≤ sdf_cost_options.coefficients.velocity ∧
        0 ≤ sdf_cost_options.coefficients.acceleration ∧
        0 ≤ sdf_cost_options.coefficients.angular_acceleration) ∧
      c = { sdf_options := sdf_options, controller_options := controller_options
            differential_drive_options := differential_drive_options
            sdf_cost_options := sdf_cost_options, mem := fresh } := by
  unfold TrajectoryController.make
  constructor
  · intro h
    split at h
    · exact Except.noConfusion h
    · split at h
      · exact Except.noConfusion h
      · split at h
        · exact Except.noConfusion h
        · split at h
          · exact Except.noConfusion h
          · split at h
            · exact Except.noConfusion h
            · split at h
              · exact Except.noConfusion h
              · split at h
                · exact Except.noConfusion h
                · rename_i h1 h2 h3 h4 h5 h6 h7
                  exact ⟨⟨not_le.mp h1, not_le.mp h2, not_le.mp h3, not_lt.mp h4, not_lt.mp h5,
                    not_lt.mp h6, not_lt.mp h7⟩, (Except.ok.inj h).symm⟩
  · rintro ⟨⟨h1, h2, h3, h4, h5, h6, h7⟩, rfl⟩
    rw [if_neg (not_le.mpr h1), if_neg (not_le.mpr h2), if_neg (not_le.mpr h3),
      if_neg (not_lt.mpr h4), if_neg (not_lt.mpr h5), if_neg (not_lt.mpr h6),
      if_neg (not_lt.mpr h7)]

/-- Method `initController` returns normally exactly when all fourteen
parameters are set and their values pass both constructors; the members are
then built from exactly these values. -/
theorem initController_eq_ok {σ RS : Type} (d : Collaborators σ RS) (ps : ParamServer)
    (r : SignedDistanceFieldOptions × TrajectoryController σ) :
    initController d ps = Except.ok r ↔
      ∃ width height resolution timestep horizon num_samples velocity_limit path velocity
        acceleration angular_acceleration lower upper axle_length,
        ps.floats "signed_distance_field/width" = some width ∧
        ps.floats "signed_distance_field/height" = some height ∧
        ps.floats "signed_distance_field/resolution" = some resolution ∧
        ps.floats "controller/timestep" = some timestep ∧
        ps.floats "controller/horizon" = some horizon ∧
        ps.ints "controller/samples" = some num_samples ∧
        ps.floats "cost_function/max_velocity" = some velocity_limit ∧
        ps.floats "cost_function/coefficients/path" = some path ∧
        ps.floats "cost_function/coefficients/velocity" = some velocity ∧
        ps.floats "cost_function/coefficients/acceleration" = some acceleration ∧
        ps.floats "cost_function/coefficients/angular_acceleration" = some angular_acceleration ∧
        ps.floats "model/acceleration_bound/lower" = some lower ∧
        ps.floats "model/acceleration_bound/upper" = some upper ∧
        ps.floats "model/axle_length" = some axle_length ∧
        (0 < resolution ∧ 0 < timestep ∧ 0 < horizon ∧ 0 < num_samples ∧ 0 ≤ path ∧
          0 ≤ velocity ∧ 0 ≤ acceleration ∧ 0 ≤ angular_acceleration) ∧
        r = ({ width_ := width, height_ := height, resolution_ := resolution },
             { sdf_options := { width_ := width, height_ := height, resolution_ := resolution }
               controller_options :=
                 { timestep := timestep, horizon := horizon, num_samples := num_samples }
               differential_drive_options :=
                 { acceleration_bound := { lower := lower, upper := upper }
                   axle_length := axle_length }
               sdf_cost_options :=
                 { velocity_limit := velocity_limit
                   coefficients :=
                     { path := path, velocity := velocity, acceleration := acceleration
                       angular_acceleration := angular_acceleration } }
               mem := d.fresh }) := by
  unfold initController
  simp only [bind_eq_ok, getParam_eq_ok, sdfOptions_make_eq_ok, controller_make_eq_ok, pure,
    Except.pure, Except.ok.injEq]
  constructor
  · rintro ⟨w, hw, h, hh, re, hre, t, ht, ho, hho, n, hn, vl, hvl, p, hp, v, hv, a, ha, aa, haa,
      lo, hlo, up, hup, ax, hax, o, ⟨hpos, rfl⟩, c, ⟨hvalid, rfl⟩, rfl⟩
    exact ⟨w, h, re, t, ho, n, vl, p, v, a, aa, lo, up, ax, hw, hh, hre, ht, hho, hn, hvl, hp, hv,
      ha, haa, hlo, hup, hax, ⟨hpos, hvalid⟩, rfl⟩
  · rintro ⟨w, h, re, t, ho, n, vl, p, v, a, aa, lo, up, ax, hw, hh, hre, ht, hho, hn, hvl, hp, hv,
      ha, haa, hlo, hup, hax, ⟨hpos, hvalid⟩, rfl⟩
    exact ⟨w, hw, h, hh, re, hre, t, ht, ho, hho, n, hn, vl, hvl, p, hp, v, hv, a, ha, aa, haa,
      lo, hlo, up, hup, ax, hax, _, ⟨hpos, rfl⟩, _, ⟨hvalid, rfl⟩, rfl⟩

/-- Construction from `sampleServer debug` returns the node `sampleNode debug`. -/
theorem construct_sampleServer (debug : Bool) :
    construct sampleCollaborators (sampleServer debug) = Except.ok (sampleNode debug) := by
  cases debug <;> rfl

/-- With the timestep set to 0, and with a coefficient set to `-1`,
`initController` ends with the configuration error of the constructor. -/
theorem initController_sample_errors :
    initController sampleCollaborators zeroTimestepServer =
      Except.error (ConfigError.invalidValue "timestep") ∧
    initController sampleCollaborators negativeCoefficientServer =
      Except.error (ConfigError.invalidValue "coefficients.velocity") := by
  constructor <;> rfl

/-- C6: `initController` with an invalid configuration (a timestep, horizon,
number of samples or field resolution that is not positive, or a negative
cost coefficient) ends with a configuration error and returns no controller;
and whenever it does return, each of the fourteen parameters is set and the
options object and the controller hold exactly the values set, so that no
default stands in for a loaded value. -/
theorem initController_rejects_invalid {σ RS : Type} (d : Collaborators σ RS) (ps : ParamServer) :
    (invalidConfiguration ps → ∃ e : ConfigError, initController d ps = Except.error e) ∧
    (∀ r : SignedDistanceFieldOptions × TrajectoryController σ,
      initController d ps = Except.ok r →
        ps.floats "signed_distance_field/width" = some r.1.width_ ∧
        ps.floats "signed_distance_field/height" = some r.1.height_ ∧
        ps.floats "signed_distance_field/resolution" = some r.1.resolution_ ∧
        r.2.sdf_options = r.1 ∧
        ps.floats "controller/timestep" = some r.2.controller_options.timestep ∧
        ps.floats "controller/horizon" = some r.2.controller_options.horizon ∧
        ps.ints "controller/samples" = some r.2.controller_options.num_samples ∧
        ps.floats "cost_function/max_velocity" = some r.2.sdf_cost_options.velocity_limit ∧
        ps.floats "cost_function/coefficients/path" =
          some r.2.sdf_cost_options.coefficients.path ∧
        ps.floats "cost_function/coefficients/velocity" =
          some r.2.sdf_cost_options.coefficients.velocity ∧
        ps.floats "cost_function/coefficients/acceleration" =
          some r.2.sdf_cost_options.coefficients.acceleration ∧
        ps.floats "cost_function/coefficients/angular_acceleration" =
          some r.2.sdf_cost_options.coefficients.angular_acceleration ∧
        ps.floats "model/acceleration_bound/lower" =
          some r.2.differential_drive_options.acceleration_bound.lower ∧
        ps.floats "model/acceleration_bound/upper" =
          some r.2.differential_drive_options.acceleration_bound.upper ∧
        ps.floats "model/axle_length" = some r.2.differential_drive_options.axle_length) := by
  constructor
  · intro hinv
    cases hres : initController d ps with
    | error e => exact ⟨e, rfl⟩
    | ok r =>
      exfalso
      obtain ⟨w, h, re, t, ho, n, vl, p, v, a, aa, lo, up, ax, hw, hh, hre, ht, hho, hn, hvl, hp,
        hv, ha, haa, hlo, hup, hax, ⟨h0, h1, h2, h3, h4, h5, h6, h7⟩, _⟩ :=
        (initController_eq_ok d ps r).mp hres
      rcases hinv with ⟨x, hx, hle⟩ | ⟨x, hx, hle⟩ | ⟨x, hx, hle⟩ | ⟨x, hx, hle⟩ | ⟨x, hx, hle⟩ |
        ⟨x, hx, hle⟩ | ⟨x, hx, hle⟩ | ⟨x, hx, hle⟩
      · rw [ht] at hx; cases hx; exact absurd h1 (not_lt.mpr hle)
      · rw [hho] at hx; cases hx; exact absurd h2 (not_lt.mpr hle)
      · rw [hn] at hx; cases hx; exact absurd h3 (not_lt.mpr hle)
      · rw [hre] at hx; cases hx; exact absurd h0 (not_lt.mpr hle)
      · rw [hp] at hx; cases hx; exact absurd h4 (not_le.mpr hle)
      · rw [hv] at hx; cases hx; exact absurd h5 (not_le.mpr hle)
      · rw [ha] at hx; cases hx; exact absurd h6 (not_le.mpr hle)
      · rw [haa] at hx; cases hx; exact absurd h7 (not_le.mpr hle)
  · intro r hres
    obtain ⟨w, h, re, t, ho, n, vl, p, v, a, aa, lo, up, ax, hw, hh, hre, ht, hho, hn, hvl, hp,
      hv, ha, haa, hlo, hup, hax, _, rfl⟩ := (initController_eq_ok d ps r).mp hres
    exact ⟨hw, hh, hre, rfl, ht, hho, hn, hvl, hp, hv, ha, haa, hlo, hup, hax⟩

/-- Witness of C6: the server with the timestep set to 0 is an invalid
configuration and `initController` ends with an error on it; on the valid
server `initController` returns the members of `sampleNode`, which hold the
timestep and the resolution that are set. -/
theorem initController_rejects_invalid_witness :
    (invalidConfiguration zeroTimestepServer ∧
      ∃ e : ConfigError, initController sampleCollaborators zeroTimestepServer = Except.error e) ∧
    (initController sampleCollaborators (sampleServer true) =
        Except.ok ((sampleNode true).sdf_options_, (sampleNode true).controller_) ∧
      (sampleServer true).floats "signed_distance_field/resolution" =
        some (sampleNode true).sdf_options_.resolution_ ∧
      (sampleServer true).floats "controller/timestep" =
        some (sampleNode true).controller_.controller_options.timestep) :=
  ⟨⟨Or.inl ⟨0, rfl, le_refl 0⟩,
      (initController_rejects_invalid sampleCollaborators zeroTimestepServer).1
        (Or.inl ⟨0, rfl, le_refl 0⟩)⟩,
   ⟨rfl,
    ((initController_rejects_invalid sampleCollaborators (sampleServer true)).2
      ((sampleNode true).sdf_options_, (sampleNode true).controller_) rfl).2.2.1,
    ((initController_rejects_invalid sampleCollaborators (sampleServer true)).2
      ((sampleNode true).sdf_options_, (sampleNode true).controller_) rfl).2.2.2.2.1⟩⟩

/-- Stored path and state after `getControls`: those before it. -/
theorem getControls_keeps_inputs {σ RS : Type} (d : Collaborators σ RS)
    (self : ROSTrajectoryController σ RS) (stamp : Time) :
    ∃ r, getControls d self stamp = some r ∧ r.1.path_ = self.path_ ∧
      r.1.state_ = self.state_ ∧ r.1.debug_ = self.debug_ := by
  rcases Option.eq_none_or_eq_some self.path_ with hp | ⟨p, hp⟩
  · obtain ⟨n, m, hg⟩ := getControls_idle d self stamp (Or.inl hp)
    exact ⟨_, hg, rfl, rfl, rfl⟩
  · rcases Option.eq_none_or_eq_some self.state_ with hs | ⟨st, hs⟩
    · obtain ⟨n, m, hg⟩ := getControls_idle d self stamp (Or.inr hs)
      exact ⟨_, hg, rfl, rfl, rfl⟩
    · obtain ⟨r, hg, h1, _⟩ := getControls_cycle d self stamp p st hp hs
      exact ⟨r, hg, by rw [h1], by rw [h1], by rw [h1]⟩

/-- Stored path and state after a sequence of messages: the path of the last
path message and the state of the last odometry message, or the stored value
when there was no such message. -/
theorem deliverAll_latest {σ RS : Type} (d : Collaborators σ RS) (ms : List Message) :
    ∀ self : ROSTrajectoryController σ RS, ∃ r, deliverAll d self ms = some r ∧
      r.1.path_ = ((lastPath ms).orElse fun _ => self.path_) ∧
      r.1.state_ = (((lastOdom ms).map d.robotState).orElse fun _ => self.state_) := by
  induction ms with
  | nil => intro self; exact ⟨_, rfl, by simp [lastPath], by simp [lastOdom]⟩
  | cons m ms ih =>
    intro self
    cases m with
    | path p =>
      obtain ⟨r1, hg, hp1, hs1, _⟩ := getControls_keeps_inputs d { self with path_ := some p } p.stamp
      obtain ⟨r2, h2, hp2, hs2⟩ := ih r1.1
      refine ⟨(r2.1, r1.2 ++ r2.2), ?_, ?_, ?_⟩
      · simp [deliverAll, deliver, pathCallback, hg, h2]
      · simp only [hp2, hp1, lastPath]
        cases lastPath ms <;> simp
      · simp only [hs2, hs1, lastOdom]
    | odom o =>
      obtain ⟨r1, hg, hp1, hs1, _⟩ :=
        getControls_keeps_inputs d { self with state_ := some (d.robotState o) } o.stamp
      obtain ⟨r2, h2, hp2, hs2⟩ := ih r1.1
      refine ⟨(r2.1, r1.2 ++ r2.2), ?_, ?_, ?_⟩
      · simp [deliverAll, deliver, odomCallback, hg, h2]
      · simp only [hp2, hp1, lastPath]
      · simp only [hs2, hs1, lastOdom]
        cases lastOdom ms <;> simp

/-- C7: each input is replaced wholesale and the latest value wins, without
touching the other input.  `pathCallback(p)` returns with the stored path
equal to `p`, whatever it was, and the stored state unchanged;
`odomCallback(o)` returns with the stored state equal to `RobotState(o)` and
the stored path unchanged; after any sequence of messages the stored path is
that of the last path message and the stored state that of the last odometry
message (the value stored at the start when no such message was in the
sequence). -/
theorem callbacks_store_latest {σ RS : Type} (d : Collaborators σ RS)
    (self : ROSTrajectoryController σ RS) :
    (∀ p : Path, ∃ r, pathCallback d self p = some r ∧
      r.1.path_ = some p ∧ r.1.state_ = self.state_) ∧
    (∀ o : Odometry, ∃ r, odomCallback d self o = some r ∧
      r.1.state_ = some (d.robotState o) ∧ r.1.path_ = self.path_) ∧
    (∀ ms : List Message, ∃ r, deliverAll d self ms = some r ∧
      r.1.path_ = ((lastPath ms).orElse fun _ => self.path_) ∧
      r.1.state_ = (((lastOdom ms).map d.robotState).orElse fun _ => self.state_)) := by
  refine ⟨?_, ?_, fun ms => deliverAll_latest d ms self⟩
  · intro p
    obtain ⟨r, hg, hp, hs, _⟩ := getControls_keeps_inputs d { self with path_ := some p } p.stamp
    exact ⟨r, hg, hp, hs⟩
  · intro o
    obtain ⟨r, hg, hp, hs, _⟩ :=
      getControls_keeps_inputs d { self with state_ := some (d.robotState o) } o.stamp
    exact ⟨r, hg, hs, hp⟩

/-- The loop of `visualizeRollout` started with the counter at `k`: it ends
with the counter advanced by the number of particles and has appended one
marker per particle, the `i`-th with id `k + i`. -/
theorem rolloutLoop_eq (stamp : Time) (particles : List Particle) :
    ∀ (k : Nat) (markers : List Marker),
      rolloutLoop stamp particles (k : Int) markers =
        (((k + particles.length : Nat) : Int),
          markers ++ (particles.enumFrom k).map fun ip =>
            toLineStrip ip.2.state_vec_ (ip.1 : Int) (1 / 1000) (97 / 100) (43 / 100) (48 / 100)
              (8 / 10) stamp) := by
  induction particles with
  | nil => intro k markers; simp [rolloutLoop]
  | cons p ps ih =>
    intro k markers
    have h := ih (k + 1) (markers ++ [toLineStrip p.state_vec_ (k : Int) (1 / 1000) (97 / 100)
      (43 / 100) (48 / 100) (8 / 10) stamp])
    simp only [rolloutLoop, List.enumFrom_cons, List.map_cons, List.length_cons]
    rw [show ((k : Int) + 1) = ((k + 1 : Nat) : Int) by push_cast; rfl, h]
    simp only [List.append_assoc, List.singleton_append, Prod.mk.injEq, and_true]
    congr 1
    omega

/-- C8: for an optimization result whose `best_particle` is a valid index
into its `n` particles, the access `particles[best_particle]` is in bounds
and `visualizeRollout` publishes a marker array of exactly `n + 1` line
strips with the pairwise distinct ids `0, 1, …, n`.  For each `i < n` the
marker `i` has id `i` and as points the `(x, y)` of the states of particle
`i`, in the same order and number; the last marker has id `n` and the points
of the particle at `best_particle`. -/
theorem visualizeRollout_markers (r : OptimizationResult) (stamp : Time) (h : r.bestInBounds) :
    ∃ best ma, particleAt r.particles r.best_particle = some best ∧
      r.particles[r.best_particle.toNat]? = some best ∧
      visualizeRollout r stamp = some ma ∧
      ma.markers.length = r.particles.length + 1 ∧
      ma.markers.map (fun m => m.id) = (List.range (r.particles.length + 1)).map Int.ofNat ∧
      (ma.markers.map fun m => m.id).Nodup ∧
      (∀ m ∈ ma.markers, m.type_ = 4) ∧
      (∀ (i : Nat) (particle : Particle), r.particles[i]? = some particle →
        ∃ m, ma.markers[i]? = some m ∧ m.id = (i : Int) ∧
          m.points = particle.state_vec_.map (fun s => { x := s.x, y := s.y, z := 0 }) ∧
          m.points.length = particle.state_vec_.length) ∧
      ∃ m, ma.markers[r.particles.length]? = some m ∧ m.id = (r.particles.length : Int) ∧
        m.points = best.state_vec_.map (fun s => { x := s.x, y := s.y, z := 0 }) ∧
        m.points.length = best.state_vec_.length := by
  obtain ⟨best, hbest⟩ := particleAt_defined r.particles r.best_particle h.1 h.2
  have hloop := rolloutLoop_eq stamp r.particles 0 []
  simp only [Nat.cast_zero, List.nil_append, Nat.zero_add] at hloop
  have hget : r.particles[r.best_particle.toNat]? = some best := by
    have := hbest
    simp only [particleAt, h.1, if_true, List.get?_eq_getElem?] at this
    exact this
  have hv : visualizeRollout r stamp = some
      { markers := ((r.particles.enumFrom 0).map fun ip =>
          toLineStrip ip.2.state_vec_ (ip.1 : Int) (1 / 1000) (97 / 100) (43 / 100) (48 / 100)
            (8 / 10) stamp) ++
          [toLineStrip best.state_vec_ (r.particles.length : Int) (1 / 100) 1 1 1 (8 / 10) stamp] } := by
    simp only [visualizeRollout, hloop, hbest]
  have hids : (((r.particles.enumFrom 0).map fun ip =>
          toLineStrip ip.2.state_vec_ (ip.1 : Int) (1 / 1000) (97 / 100) (43 / 100) (48 / 100)
            (8 / 10) stamp) ++
          [toLineStrip best.state_vec_ (r.particles.length : Int) (1 / 100) 1 1 1 (8 / 10)
            stamp]).map (fun m => m.id) =
        (List.range (r.particles.length + 1)).map Int.ofNat := by
    simp only [List.map_append, List.map_map, List.map_cons, List.map_nil, List.range_succ]
    congr 1
    have : ((fun m : Marker => m.id) ∘ fun ip : Nat × Particle =>
        toLineStrip ip.2.state_vec_ (ip.1 : Int) (1 / 1000) (97 / 100) (43 / 100) (48 / 100)
          (8 / 10) stamp) = Int.ofNat ∘ Prod.fst := by
      funext ip
      rfl
    rw [this, ← List.map_map, List.enumFrom_map_fst, List.range_eq_range']
  refine ⟨best, _, hbest, hget, hv, ?_, hids, ?_, ?_, ?_, ?_⟩
  · simp
  · rw [hids]
    exact (List.nodup_range _).map (fun a b hab => by simpa using hab)
  · intro m hm
    simp only [List.mem_append, List.mem_map, List.mem_singleton] at hm
    rcases hm with ⟨ip, _, rfl⟩ | rfl <;> rfl
  · intro i particle hi
    have hlt : i < r.particles.length := by
      by_contra hcon
      rw [List.getElem?_eq_none (by omega)] at hi
      exact Option.noConfusion hi
    refine ⟨toLineStrip particle.state_vec_ (i : Int) (1 / 1000) (97 / 100) (43 / 100) (48 / 100)
      (8 / 10) stamp, ?_, rfl, rfl, by simp [toLineStrip]⟩
    rw [List.getElem?_append_left (by simpa using hlt)]
    simp [List.getElem?_map, List.getElem?_enumFrom, hi]
  · refine ⟨toLineStrip best.state_vec_ (r.particles.length : Int) (1 / 100) 1 1 1 (8 / 10) stamp,
      ?_, rfl, rfl, by simp [toLineStrip]⟩
    rw [List.getElem?_append_right (by simp)]
    simp

/-- Witness of C8: the two particles of `sampleResult`, the second one
selected. -/
theorem visualizeRollout_markers_witness :
    sampleResult.optimization_result.bestInBounds ∧
    ∃ best ma, particleAt sampleResult.optimization_result.particles
        sampleResult.optimization_result.best_particle = some best ∧
      visualizeRollout sampleResult.optimization_result ⟨0, 0⟩ = some ma ∧
      ma.markers.length = 3 ∧ ma.markers.map (fun m => m.id) = [0, 1, 2] :=
  ⟨by decide, by
    obtain ⟨best, ma, h1, _, h2, h3, h4, _⟩ :=
      visualizeRollout_markers sampleResult.optimization_result ⟨0, 0⟩ (by decide)
    exact ⟨best, ma, h1, h2, h3, h4⟩⟩

end RosTrajectoryController

namespace NewMapper

/-! ## Properties of the mapper -/

/-- What the range guard of the point loop does establish for a write: the
row is inside the grid and the column is not negative.  The guard compares
`start_y`, not the column, with `width_x`. -/
theorem pointStep_write_guard (g : Globals) (co si : ℚ) (st st1 : LoopState) (point : PointXYZ)
    (h : pointStep g co si st point = some st1) (a : Access) (ha : a ∈ st1.accesses)
    (hnew : a ∉ st.accesses) :
    a.write = true ∧ 0 ≤ a.row ∧ a.row < g.length_y ∧ 0 ≤ a.col ∧ g.start_y < g.width_x := by
  unfold pointStep at h
  simp only at h
  split at h
  · exact Option.noConfusion h
  · split at h
    · split at h
      · rename_i px py _ _ hguard
        cases h
        simp only [List.mem_append, List.mem_singleton] at ha
        rcases ha with ha | rfl
        · exact absurd ha hnew
        · exact ⟨rfl, hguard.1, hguard.2.2.1, hguard.2.1, hguard.2.2.2⟩
      · split at h
        · cases h
          exact absurd ha hnew
        · cases h
          exact absurd ha hnew
    · exact Option.noConfusion h

/-- C9 (the code departs from the claim): on the grid of 2 rows and 3
columns, a cloud point 5 m along `y` passes the range guard and is written at
column 5, and the debug scan reads row 2; with the robot 5 m along `y` the
robot-position write goes to column 5.  The accesses listed are those outside
the grid. -/
theorem frame_callback_leaves_grid :
    (frame_callback (sampleGlobals true 0 0) 1 0 blankGrid [{ x := 0, y := 5 }]).map
      (fun r => r.accesses.filter fun a => decide (¬ a.inGrid (sampleGlobals true 0 0))) =
      some [{ write := true, row := 0, col := 5 }, { write := false, row := 2, col := 0 },
            { write := false, row := 2, col := 1 }] ∧
    (frame_callback (sampleGlobals false 0 5) 1 0 blankGrid []).map
      (fun r => r.accesses.filter fun a => decide (¬ a.inGrid (sampleGlobals false 0 5))) =
      some [{ write := true, row := 0, col := 5 }] := by
  decide!

/-- The start-up check stops `main` exactly when all six parameters that it
asks about are absent. -/
theorem main_rejected_iff (ps : ParamServer) (cont_start_x cont_start_y : ℚ) :
    (main ps cont_start_x cont_start_y).rejected ↔
      (ps.hasParam "topics" = false ∧ ps.hasParam "occupancy_grid_length" = false ∧
        ps.hasParam "occupancy_grid_resolution" = false ∧ ps.hasParam "start_X" = false ∧
        ps.hasParam "start_Y" = false ∧ ps.hasParam "debug" = false) := by
  unfold main MainResult.rejected
  cases hm : missingParameters ps
  · have hno : ¬ (ps.hasParam "topics" = false ∧ ps.hasParam "occupancy_grid_length" = false ∧
        ps.hasParam "occupancy_grid_resolution" = false ∧ ps.hasParam "start_X" = false ∧
        ps.hasParam "start_Y" = false ∧ ps.hasParam "debug" = false) := by
      intro hall
      obtain ⟨h1, h2, h3, h4, h5, h6⟩ := hall
      simp [missingParameters, h1, h2, h3, h4, h5, h6] at hm
    simp only [Bool.false_eq_true, if_false]
    constructor
    · intro hrej
      exfalso
      split at hrej
      · simp [parametersRead] at hrej
      · simp [parametersRead] at hrej
    · intro hall
      exact absurd hall hno
  · simp only [if_true, true_iff]
    simp only [missingParameters, Bool.and_eq_true, Bool.not_eq_true', Bool.and_self] at hm
    tauto

/-- C10 (the code departs from the claim): the parameter `debug` is absent,
as is noted first, and `main` does not stop at the start-up check; it reads
the eight parameters, subscribes, creates the grid of 2 rows and 3 columns
and goes on to spin. -/
theorem main_runs_with_parameter_missing :
    serverWithoutDebug.hasParam "debug" = false ∧
    ¬ (main serverWithoutDebug 0 0).rejected ∧
    (main serverWithoutDebug 0 0).events =
      [MainEvent.getParam "topics", MainEvent.getParam "occupancy_grid_length",
       MainEvent.getParam "occupancy_grid_width", MainEvent.getParam "occupancy_grid_resolution",
       MainEvent.getParam "start_X", MainEvent.getParam "start_Y",
       MainEvent.getParam "orientation", MainEvent.getParam "debug",
       MainEvent.subscribe "/odometry/filtered", MainEvent.subscribe "/scan",
       MainEvent.newMat 2 3, MainEvent.advertise "/map", MainEvent.spin] ∧
    (main serverWithoutDebug 0 0).globals = some (sampleGlobals false 0 0) := by
  decide!

end NewMapper
